import Mathlib

/-!
Verification development for the MCP demo web UI's connection/session
lifecycle manager and tool-invocation layer.

The definitions below are a shallow embedding of the Python sources:

* `src/utils/mcp_client.py` — `MCPServer`, `MCPClientManager` and its
  operations (`load_config`, `save_config`, `connect_server`,
  `disconnect_server`, `call_tool`, `add_server`, `update_server`,
  `remove_server`, `get_server_status`, `_trigger_event`).
* `src/utils/strands_mcp_agent.py` — `FilteredMCPClient` argument
  filtering and `StrandsMCPAgent.connect_server`.
* `src/api/mcp_routes.py` — the `add_server` route handler.

Modelling conventions:

* Python dicts keyed by server id are association lists
  `List (String × β)` with dict semantics (assignment replaces, `del`
  removes, iteration in insertion order).
* `datetime.now()` is a logical clock (`Nat`) threaded through the
  state; only presence/absence and ordering of timestamps matter here.
* The MCP transport (stdio client, `ClientSession`, the session
  handshake, `list_tools`, `call_tool` on the session) is the external
  collaborator; its behaviour at each suspension point is supplied as
  an explicit outcome argument (`ConnectOutcome` / `CallOutcome`).
  Transport sessions are numbered; the state tracks which sessions
  were spawned per server id and which were closed by an exit stack's
  `aclose`, so that session-leak/double-session questions are statable.
* A Python exception escaping a function is modelled as `Except.error`;
  functions that cannot raise are total Lean functions.
* Event emission (`_trigger_event`) is recorded in the manager state as
  the list of `(event_type, server_id)` pairs in emission order; the
  event-bus callback mechanism itself is modelled separately with
  explicit effectful handlers.
-/

namespace MCPDemo

/-- JSON-style values occurring in tool-call argument dictionaries.
Python booleans are a subtype of `int` (`False == 0` is `True`), which
`pyEqZero` below accounts for. -/
inductive PyVal where
  | none
  | int (n : Int)
  | str (s : String)
  | bool (b : Bool)
deriving DecidableEq

/-- One entry of `server.available_tools` as built in
`MCPClientManager.connect_server` (name / description / inputSchema). -/
structure ToolInfo where
  name : String
  description : String
  inputSchema : String
deriving DecidableEq

/-- The `MCPServer` dataclass of `src/utils/mcp_client.py` (the unused
`process`/`stdin`/`stdout` fields are omitted; `session` holds the
numbered transport session). -/
structure MCPServer where
  id : String
  name : String
  description : String
  command : List String
  args : List String
  env_vars : List (String × String)
  enabled : Bool
  auto_connect : Bool
  category : String
  session : Option Nat
  available_tools : List ToolInfo
  status : String
  last_error : Option String
  connected_at : Option Nat
deriving DecidableEq

/-- A server-configuration dictionary as passed to `add_server` /
`update_server` or read by `load_config`: every key may be absent. -/
structure ServerConfig where
  name : Option String
  description : Option String
  command : Option (List String)
  args : Option (List String)
  env_vars : Option (List (String × String))
  enabled : Option Bool
  auto_connect : Option Bool
  category : Option String
deriving DecidableEq

/-- One entry of `tool_call_history` (the Python dict grows keys as the
call progresses; absent keys are `Option.none`). -/
structure CallRecord where
  server_id : String
  server_name : String
  tool_name : String
  arguments : List (String × PyVal)
  timestamp : Nat
  status : String
  result : Option String
  error : Option String
  duration : Option Nat
deriving DecidableEq

/-- The mutable state of an `MCPClientManager` instance, together with
the bookkeeping needed to observe transport-session lifecycles:
`spawned` lists `(server_id, session)` pairs for every transport session
opened, `closed` lists sessions released by an exit stack's `aclose`,
`events` records `(event_type, server_id)` for every `_trigger_event`. -/
structure ManagerState where
  servers : List (String × MCPServer)
  active_connections : List (String × Nat)
  tool_call_history : List CallRecord
  events : List (String × String)
  spawned : List (String × Nat)
  closed : List Nat
  nextSession : Nat
  clock : Nat
deriving DecidableEq

/-- Association-list lookup (Python `dict.get` / `in`). -/
def lookupA {β : Type} : List (String × β) → String → Option β
  | [], _ => Option.none
  | p :: rest, k => if p.1 = k then some p.2 else lookupA rest k

/-- Replace the value at an existing key (Python `d[k].field = …` or
`d[k] = v` when `k in d`). -/
def updateA {β : Type} : List (String × β) → String → (β → β) → List (String × β)
  | [], _, _ => []
  | p :: rest, k, f =>
    if p.1 = k then (p.1, f p.2) :: updateA rest k f else p :: updateA rest k f

/-- Python `d[k] = v`: replace if present, else append. -/
def setA {β : Type} (l : List (String × β)) (k : String) (v : β) : List (String × β) :=
  if (lookupA l k).isSome then updateA l k (fun _ => v) else l ++ [(k, v)]

/-- Python `del d[k]`. -/
def eraseA {β : Type} : List (String × β) → String → List (String × β)
  | [], _ => []
  | p :: rest, k => if p.1 = k then eraseA rest k else p :: eraseA rest k

/-- `MCPClientManager.load_config`, per-entry: build an `MCPServer` from
one `active_servers` entry with the defaults used at lines 58-68 of
`mcp_client.py`; runtime fields take their dataclass defaults. -/
def configToServer (server_id : String) (cfg : ServerConfig) : MCPServer :=
  { id := server_id,
    name := cfg.name.getD "Unknown Server",
    description := cfg.description.getD "",
    command := cfg.command.getD [],
    args := cfg.args.getD [],
    env_vars := cfg.env_vars.getD [],
    enabled := cfg.enabled.getD true,
    auto_connect := cfg.auto_connect.getD false,
    category := cfg.category.getD "General",
    session := Option.none, available_tools := [], status := "disconnected",
    last_error := Option.none, connected_at := Option.none }

/-- `MCPClientManager.load_config`: populate `self.servers` from the
persisted `active_servers` mapping. -/
def load_config (cfg : List (String × ServerConfig)) : List (String × MCPServer) :=
  cfg.map (fun p => (p.1, configToServer p.1 p.2))

/-- A freshly constructed `MCPClientManager` whose config file holds
`cfg` (`__init__` + `load_config`). -/
def initManager (cfg : List (String × ServerConfig)) : ManagerState :=
  { servers := load_config cfg, active_connections := [], tool_call_history := [],
    events := [], spawned := [], closed := [], nextSession := 0, clock := 0 }

/-- `MCPClientManager.save_config`: the `active_servers` mapping written
to disk (the global `settings` block and the `added_at` stamp carry no
descriptor data and are omitted). -/
def save_config (st : ManagerState) : List (String × ServerConfig) :=
  st.servers.map (fun p =>
    (p.1,
      { name := some p.2.name, description := some p.2.description,
        command := some p.2.command, args := some p.2.args,
        env_vars := some p.2.env_vars, enabled := some p.2.enabled,
        auto_connect := some p.2.auto_connect, category := some p.2.category }))

/-- Descriptor fields of `s` re-read from disk under key `server_id`:
what one `save_config`/`load_config` round trip produces for an entry. -/
def resetRuntime (server_id : String) (s : MCPServer) : MCPServer :=
  { id := server_id, name := s.name, description := s.description,
    command := s.command, args := s.args, env_vars := s.env_vars,
    enabled := s.enabled, auto_connect := s.auto_connect, category := s.category,
    session := Option.none, available_tools := [], status := "disconnected",
    last_error := Option.none, connected_at := Option.none }

/-- Behaviour of the external MCP transport during one
`connect_server` attempt, one constructor per failure point of the
`try` block (`mcp_client.py` lines 111-210):
* `importError` — the MCP SDK import fails (line 116); no exit stack
  is created and no event is emitted.
* `transportTimeout`/`transportError` — `stdio_client` fails inside
  `asyncio.wait_for` (line 140) before a transport session is open.
* `initTimeout`/`initError` — `ClientSession` creation (line 147) or
  `session` initialization (line 153) fails after the transport opened.
* `listToolsTimeout`/`listToolsError` — `list_tools` (line 161) fails
  after `status`/`connected_at` were already set.
* `ok tools` — every stage succeeds and `list_tools` returns `tools`. -/
inductive ConnectOutcome where
  | importError
  | transportTimeout
  | transportError (msg : String)
  | initTimeout
  | initError (msg : String)
  | listToolsTimeout
  | listToolsError (msg : String)
  | ok (tools : List ToolInfo)
deriving DecidableEq

/-- The `last_error` message of the `asyncio.TimeoutError` handler of
`connect_server` (line 182). -/
def timeout_connect_msg (t : Nat) : String :=
  "Connection timeout after " ++ toString t ++ " seconds"

/-- Which `last_error` a given connect outcome produces (`Option.none`
for the success outcome). -/
def connectFailMsg (oc : ConnectOutcome) (timeout : Nat) : Option String :=
  match oc with
  | .importError => some "MCP SDK not installed"
  | .transportTimeout => some (timeout_connect_msg timeout)
  | .transportError msg => some msg
  | .initTimeout => some (timeout_connect_msg timeout)
  | .initError msg => some msg
  | .listToolsTimeout => some (timeout_connect_msg timeout)
  | .listToolsError msg => some msg
  | .ok _ => Option.none

/-- `MCPClientManager.connect_server` (`mcp_client.py` lines 103-210).
Notable source behaviour reproduced here:
* there is no already-connected guard — a connect on a connected server
  runs the full sequence again;
* line 137 stores the fresh exit stack under `server_id`, replacing
  (and thereby leaking, never closing) any previously stored stack;
* the error handlers set `status`/`last_error` but do not clear
  `connected_at`, `available_tools` or `session`;
* a `list_tools` failure happens after `status = "connected"` and
  `connected_at` were set (lines 156-158), so those writes persist into
  the error handler;
* the success path never clears `last_error`. -/
def connect_server (st : ManagerState) (server_id : String) (timeout : Nat)
    (outcome : ConnectOutcome) : Bool × ManagerState :=
  match lookupA st.servers server_id with
  | Option.none => (false, st)
  | some _ =>
    match outcome with
    | .importError =>
      (false, { st with servers := updateA st.servers server_id (fun s =>
        { s with status := "error", last_error := some "MCP SDK not installed" }) })
    | .transportTimeout =>
      let n := st.nextSession
      (false, { st with
        servers := updateA st.servers server_id (fun s =>
          { s with status := "error",
                   last_error := some (timeout_connect_msg timeout) }),
        active_connections := eraseA (setA st.active_connections server_id n) server_id,
        nextSession := n + 1,
        events := st.events ++ [("server_error", server_id)] })
    | .transportError msg =>
      let n := st.nextSession
      (false, { st with
        servers := updateA st.servers server_id (fun s =>
          { s with status := "error", last_error := some msg }),
        active_connections := eraseA (setA st.active_connections server_id n) server_id,
        nextSession := n + 1,
        events := st.events ++ [("server_error", server_id)] })
    | .initTimeout =>
      let n := st.nextSession
      (false, { st with
        servers := updateA st.servers server_id (fun s =>
          { s with status := "error",
                   last_error := some (timeout_connect_msg timeout) }),
        active_connections := eraseA (setA st.active_connections server_id n) server_id,
        spawned := st.spawned ++ [(server_id, n)],
        closed := st.closed ++ [n],
        nextSession := n + 1,
        events := st.events ++ [("server_error", server_id)] })
    | .initError msg =>
      let n := st.nextSession
      (false, { st with
        servers := updateA st.servers server_id (fun s =>
          { s with status := "error", last_error := some msg }),
        active_connections := eraseA (setA st.active_connections server_id n) server_id,
        spawned := st.spawned ++ [(server_id, n)],
        closed := st.closed ++ [n],
        nextSession := n + 1,
        events := st.events ++ [("server_error", server_id)] })
    | .listToolsTimeout =>
      let n := st.nextSession
      (false, { st with
        servers := updateA st.servers server_id (fun s =>
          { s with session := some n, status := "error",
                   connected_at := some st.clock,
                   last_error := some (timeout_connect_msg timeout) }),
        active_connections := eraseA (setA st.active_connections server_id n) server_id,
        spawned := st.spawned ++ [(server_id, n)],
        closed := st.closed ++ [n],
        nextSession := n + 1, clock := st.clock + 1,
        events := st.events ++ [("server_error", server_id)] })
    | .listToolsError msg =>
      let n := st.nextSession
      (false, { st with
        servers := updateA st.servers server_id (fun s =>
          { s with session := some n, status := "error",
                   connected_at := some st.clock,
                   last_error := some msg }),
        active_connections := eraseA (setA st.active_connections server_id n) server_id,
        spawned := st.spawned ++ [(server_id, n)],
        closed := st.closed ++ [n],
        nextSession := n + 1, clock := st.clock + 1,
        events := st.events ++ [("server_error", server_id)] })
    | .ok tools =>
      let n := st.nextSession
      (true, { st with
        servers := updateA st.servers server_id (fun s =>
          { s with session := some n, status := "connected",
                   connected_at := some st.clock,
                   available_tools := tools }),
        active_connections := setA st.active_connections server_id n,
        spawned := st.spawned ++ [(server_id, n)],
        nextSession := n + 1, clock := st.clock + 1,
        events := st.events ++ [("server_connected", server_id)] })

/-- `MCPClientManager.disconnect_server` (`mcp_client.py` lines
212-231): a no-op unless an exit stack is registered for the id; the
exit stack's `aclose` (assumed to succeed, the transport being the
trusted collaborator) releases the stack's session, the registry entry
(if still present) is reset, and `server_disconnected` is emitted. -/
def disconnect_server (st : ManagerState) (server_id : String) : ManagerState :=
  match lookupA st.active_connections server_id with
  | Option.none => st
  | some n =>
    let st1 := { st with
      closed := st.closed ++ [n],
      active_connections := eraseA st.active_connections server_id }
    let st2 :=
      match lookupA st1.servers server_id with
      | Option.none => st1
      | some _ =>
        { st1 with servers := updateA st1.servers server_id (fun s =>
          { s with status := "disconnected", session := Option.none,
                   connected_at := Option.none, available_tools := [] }) }
    { st2 with events := st2.events ++ [("server_disconnected", server_id)] }

/-- Behaviour of `server.session.call_tool` under `asyncio.wait_for`
during one `call_tool` invocation: success with a result after
`elapsed` seconds, a timeout, or an exception after `elapsed` seconds. -/
inductive CallOutcome where
  | ok (result : String) (elapsed : Nat)
  | timeout
  | err (msg : String) (elapsed : Nat)
deriving DecidableEq

/-- The dictionary returned by `MCPClientManager.call_tool`: the
precondition failures return a bare `error` key with no `success` key
(lines 236 and 241), the other paths return a `success` key. -/
inductive CallResult where
  | errOnly (msg : String)
  | ok (result : String) (duration : Nat)
  | fail (error : String)
deriving DecidableEq

/-- The error message of `call_tool`'s timeout handler (line 283). -/
def tool_timeout_msg (t : Nat) : String :=
  "Tool execution timed out after " ++ toString t ++ " seconds"

/-- `MCPClientManager.call_tool` (`mcp_client.py` lines 233-307).
The appended history entry reflects the in-place mutation of
`call_record` after the remote call settles; `tool_call_start` is
emitted before the call and the completion/error event after it. -/
def call_tool (st : ManagerState) (server_id tool_name : String)
    (arguments : List (String × PyVal)) (timeout : Nat) (outcome : CallOutcome) :
    CallResult × ManagerState :=
  match lookupA st.servers server_id with
  | Option.none => (.errOnly ("Server " ++ server_id ++ " not found"), st)
  | some server =>
    if server.status ≠ "connected" ∨ server.session = Option.none then
      (.errOnly ("Server " ++ server.name ++ " is not connected"), st)
    else
      let rec0 : CallRecord :=
        { server_id := server_id, server_name := server.name,
          tool_name := tool_name, arguments := arguments,
          timestamp := st.clock, status := "executing",
          result := Option.none, error := Option.none, duration := Option.none }
      match outcome with
      | .ok r elapsed =>
        (.ok r elapsed,
          { st with
            tool_call_history := st.tool_call_history ++
              [{ rec0 with
                 status := "completed", result := some r,
                 duration := some elapsed }],
            events := st.events ++
              [("tool_call_start", server_id), ("tool_call_complete", server_id)],
            clock := st.clock + elapsed + 1 })
      | .timeout =>
        (.fail (tool_timeout_msg timeout),
          { st with
            tool_call_history := st.tool_call_history ++
              [{ rec0 with
                 status := "failed",
                 error := some (tool_timeout_msg timeout),
                 duration := some timeout }],
            events := st.events ++
              [("tool_call_start", server_id), ("tool_call_error", server_id)],
            clock := st.clock + timeout + 1 })
      | .err m elapsed =>
        (.fail m,
          { st with
            tool_call_history := st.tool_call_history ++
              [{ rec0 with
                 status := "failed", error := some m,
                 duration := some elapsed }],
            events := st.events ++
              [("tool_call_start", server_id), ("tool_call_error", server_id)],
            clock := st.clock + elapsed + 1 })

/-- `MCPClientManager.add_server` (`mcp_client.py` lines 309-329).
`server_config['name']` and `server_config['command']` raise `KeyError`
when absent (modelled as `Except.error`); the remaining fields use
`.get` defaults. The generated `uuid4` is supplied as `server_id`. -/
def add_server (st : ManagerState) (cfg : ServerConfig) (server_id : String) :
    Except String (String × ManagerState) :=
  match cfg.name with
  | Option.none => .error "KeyError: name"
  | some nm =>
    match cfg.command with
    | Option.none => .error "KeyError: command"
    | some cmd =>
      let server : MCPServer :=
        { id := server_id, name := nm,
          description := cfg.description.getD "",
          command := cmd, args := cfg.args.getD [],
          env_vars := cfg.env_vars.getD [],
          enabled := cfg.enabled.getD true,
          auto_connect := cfg.auto_connect.getD false,
          category := cfg.category.getD "General",
          session := Option.none, available_tools := [],
          status := "disconnected", last_error := Option.none,
          connected_at := Option.none }
      .ok (server_id, { st with servers := setA st.servers server_id server })

/-- `MCPClientManager.update_server` (`mcp_client.py` lines 331-349):
merge the provided descriptor fields, leaving runtime state alone. -/
def update_server (st : ManagerState) (server_id : String) (cfg : ServerConfig) :
    Bool × ManagerState :=
  match lookupA st.servers server_id with
  | Option.none => (false, st)
  | some _ =>
    (true, { st with servers := updateA st.servers server_id (fun s =>
      { s with
        name := cfg.name.getD s.name,
        description := cfg.description.getD s.description,
        command := cfg.command.getD s.command,
        args := cfg.args.getD s.args,
        env_vars := cfg.env_vars.getD s.env_vars,
        enabled := cfg.enabled.getD s.enabled,
        auto_connect := cfg.auto_connect.getD s.auto_connect,
        category := cfg.category.getD s.category }) })

/-- `MCPClientManager.remove_server` (`mcp_client.py` lines 351-359):
delete the registry entry; if an exit stack was registered, the
scheduled `disconnect_server` task then runs (after the deletion). -/
def remove_server (st : ManagerState) (server_id : String) : ManagerState :=
  match lookupA st.servers server_id with
  | Option.none => st
  | some _ =>
    let hadConn := (lookupA st.active_connections server_id).isSome
    let st1 := { st with servers := eraseA st.servers server_id }
    if hadConn then disconnect_server st1 server_id else st1

/-- The dictionary built by `MCPClientManager.get_server_status`
(`mcp_client.py` lines 367-377). Note that `command`, `args`,
`enabled` and `auto_connect` are not among its keys. -/
structure StatusDict where
  id : String
  name : String
  description : String
  status : String
  category : String
  env_vars : List (String × String)
  connected_at : Option Nat
  available_tools : List ToolInfo
  last_error : Option String
deriving DecidableEq

/-- Result of `get_server_status`: either the not-found error dict or a
status dict. -/
inductive StatusResult where
  | err (msg : String)
  | ok (d : StatusDict)
deriving DecidableEq

/-- `MCPClientManager.get_server_status` (`mcp_client.py` 361-384). -/
def get_server_status (st : ManagerState) (server_id : String) : StatusResult :=
  match lookupA st.servers server_id with
  | Option.none => .err "Server not found"
  | some s =>
    .ok { id := s.id, name := s.name, description := s.description,
          status := s.status, category := s.category, env_vars := s.env_vars,
          connected_at := s.connected_at, available_tools := s.available_tools,
          last_error := s.last_error }

/-- `MCPClientManager.get_all_servers`: `get_server_status` over every
registered id in insertion order. -/
def get_all_servers (st : ManagerState) : List StatusResult :=
  st.servers.map (fun p => get_server_status st p.1)

/-- One operation of the manager's public interface, with the external
transport's behaviour supplied alongside; `addServer` carries the
generated uuid. -/
inductive Op where
  | connect (server_id : String) (timeout : Nat) (outcome : ConnectOutcome)
  | disconnect (server_id : String)
  | callTool (server_id tool_name : String) (arguments : List (String × PyVal))
      (timeout : Nat) (outcome : CallOutcome)
  | addServer (cfg : ServerConfig) (fresh : String)
  | updateServer (server_id : String) (cfg : ServerConfig)
  | removeServer (server_id : String)

/-- Apply one operation to the manager state (discarding the returned
value; a raised `KeyError` from `add_server` leaves the state as the
partially executed Python would: nothing was stored yet). -/
def step (st : ManagerState) (op : Op) : ManagerState :=
  match op with
  | .connect sid t oc => (connect_server st sid t oc).2
  | .disconnect sid => disconnect_server st sid
  | .callTool sid tn args t oc => (call_tool st sid tn args t oc).2
  | .addServer cfg fresh =>
    match add_server st cfg fresh with
    | .ok (_, st') => st'
    | .error _ => st
  | .updateServer sid cfg => (update_server st sid cfg).2
  | .removeServer sid => remove_server st sid

/-- Run a sequence of operations. -/
def runOps (st : ManagerState) (ops : List Op) : ManagerState :=
  ops.foldl step st

/-- Transport sessions spawned for `server_id` and never closed by any
exit stack: the concurrently live sessions for that id. -/
def live_sessions (st : ManagerState) (server_id : String) : List Nat :=
  ((st.spawned.filter (fun p => p.1 == server_id)).map Prod.snd).filter
    (fun n => !(st.closed.contains n))

/-- The JSON response of the `add_server` route handler
(`mcp_routes.py` lines 177-210), together with the HTTP status code. -/
structure RouteResponse where
  code : Nat
  success : Bool
  error : Option String
  server_id : Option String
  message : Option String
deriving DecidableEq

/-- The `POST /servers` route handler `add_server` of
`src/api/mcp_routes.py` (lines 177-210): validates the required fields
`name` and `command` before delegating to `MCPClientManager.add_server`;
the surrounding `try`/`except` turns any escaping exception into a 500
response, so the route itself is total. (The handler also asks the
Strands agent to reload its configs, which touches no manager state.)
The success message in the source wraps the server name in single
quotes; the quotes are elided here. -/
def route_add_server (st : ManagerState) (data : ServerConfig) (fresh : String) :
    RouteResponse × ManagerState :=
  if data.name = Option.none then
    ({ code := 400, success := false,
       error := some "Missing required field: name",
       server_id := Option.none, message := Option.none }, st)
  else if data.command = Option.none then
    ({ code := 400, success := false,
       error := some "Missing required field: command",
       server_id := Option.none, message := Option.none }, st)
  else
    match add_server st data fresh with
    | .ok (sid, st') =>
      ({ code := 200, success := true, error := Option.none,
         server_id := some sid,
         message := some ("Server " ++ data.name.getD "" ++ " added successfully") },
       st')
    | .error e =>
      ({ code := 500, success := false, error := some e,
         server_id := Option.none, message := Option.none }, st)

/-- An event-bus callback: applied to the event payload it transforms
some ambient state `σ` and optionally raises an exception (carried as
its message). This models an arbitrary effectful Python callable. -/
structure Handler (σ : Type) (α : Type) where
  run : α → σ → σ × Option String

/-- The loop body of `MCPClientManager._trigger_event` (`mcp_client.py`
lines 410-414): invoke each callback in registration order; a raised
exception is logged (`Event callback error: …`) and the loop goes on. -/
def run_callbacks {σ α : Type} (hs : List (Handler σ α)) (data : α)
    (s : σ) (log : List String) : σ × List String :=
  hs.foldl (fun acc h =>
    match h.run data acc.1 with
    | (s', Option.none) => (s', acc.2)
    | (s', some e) => (s', acc.2 ++ ["Event callback error: " ++ e])) (s, log)

/-- `MCPClientManager._trigger_event` (`mcp_client.py` lines 407-414):
look up the callbacks registered for the event type (none registered
means nothing happens) and deliver the payload to each in turn,
catching and logging per-handler failures. Returns the ambient state
after all handlers ran and the error log. -/
def trigger_event {σ α : Type} (callbacks : List (String × List (Handler σ α)))
    (event_type : String) (data : α) (s : σ) : σ × List String :=
  match lookupA callbacks event_type with
  | Option.none => (s, [])
  | some hs => run_callbacks hs data s []

/-- The reference result of delivering `data` to the handlers one by
one: the exception messages logged, in order, while every handler
(also those after a failing one) is applied to the evolving state. -/
def handlerErrors {σ α : Type} : List (Handler σ α) → α → σ → List String
  | [], _, _ => []
  | h :: rest, data, s =>
    match h.run data s with
    | (s', Option.none) => handlerErrors rest data s'
    | (s', some e) => ("Event callback error: " ++ e) :: handlerErrors rest data s'

/-- The state after every handler in the list ran, in order. -/
def applyHandlers {σ α : Type} (hs : List (Handler σ α)) (data : α) (s : σ) : σ :=
  hs.foldl (fun t h => (h.run data t).1) s

/-- The `connected_servers` entries of `StrandsMCPAgent`
(`strands_mcp_agent.py` lines 310-315 and 322-326): the success entry
has `description`/`tools_count` keys, the error entry an `error` key. -/
structure AgentConnInfo where
  name : String
  description : Option String
  status : String
  tools_count : Option Nat
  error : Option String
deriving DecidableEq

/-- The mutable state of a `StrandsMCPAgent` restricted to its MCP
connection management (`mcp_servers`, `mcp_clients`,
`connected_servers`); `agent_spawned` counts the transport test
connections opened by `connect_server`. -/
structure AgentState where
  mcp_servers : List (String × ServerConfig)
  mcp_clients : List (String × Nat)
  connected_servers : List (String × AgentConnInfo)
  nextClient : Nat
  agent_spawned : Nat
deriving DecidableEq

/-- Behaviour of the `with mcp_client: list_tools_sync()` test
connection inside `StrandsMCPAgent.connect_server`: the tool count on
success, or the exception message. -/
inductive AgentConnectOutcome where
  | ok (tool_count : Nat)
  | fail (msg : String)
deriving DecidableEq

/-- `StrandsMCPAgent.connect_server` (`strands_mcp_agent.py` lines
265-327). In contrast to `MCPClientManager.connect_server`, an id
already present in `mcp_clients` returns `True` immediately without
touching any state or opening a transport (lines 271-273). -/
def agent_connect_server (st : AgentState) (server_id : String)
    (outcome : AgentConnectOutcome) : Bool × AgentState :=
  match lookupA st.mcp_servers server_id with
  | Option.none => (false, st)
  | some cfg =>
    match lookupA st.mcp_clients server_id with
    | some _ => (true, st)
    | Option.none =>
      if cfg.command.getD [] = [] then (false, st)
      else
        match outcome with
        | .ok n =>
          let c := st.nextClient
          (true, { st with
            mcp_clients := setA st.mcp_clients server_id c,
            connected_servers := setA st.connected_servers server_id
              { name := cfg.name.getD ("Server " ++ server_id),
                description := some (cfg.description.getD ""),
                status := "connected", tools_count := some n,
                error := Option.none },
            nextClient := c + 1,
            agent_spawned := st.agent_spawned + 1 })
        | .fail m =>
          (false, { st with
            connected_servers := setA st.connected_servers server_id
              { name := cfg.name.getD ("Server " ++ server_id),
                description := Option.none, status := "error",
                tools_count := Option.none, error := some m },
            agent_spawned := st.agent_spawned + 1 })

/-- Python truth of `v == 0`. Python's `bool` is a subtype of `int`
(`False == 0` holds), so `False` is the integer `0` here. -/
def pyEqZero : PyVal → Bool
  | .int n => n == 0
  | .bool b => b == false
  | _ => false

/-- Whether `FilteredMCPClient` keeps an argument pair: dropped when the
value is `None` or when the key is `offset` with value `== 0`
(`strands_mcp_agent.py` lines 34-40 and 53-59). -/
def keep_tool_arg (k : String) (v : PyVal) : Bool :=
  !(v == PyVal.none) && !(k == "offset" && pyEqZero v)

/-- The filtering loop shared by `FilteredMCPClient.call_tool_sync` and
`call_tool_async`: rebuild the argument dictionary keeping only the
pairs `keep_tool_arg` accepts, in order. -/
def filter_tool_args (kwargs : List (String × PyVal)) : List (String × PyVal) :=
  kwargs.filter (fun p => keep_tool_arg p.1 p.2)

/-- `FilteredMCPClient.call_tool_sync` (`strands_mcp_agent.py` lines
31-47), projected to what reaches the parent class: the tool name and
the filtered keyword arguments. -/
def call_tool_sync_args (tool_name : String) (kwargs : List (String × PyVal)) :
    String × List (String × PyVal) :=
  (tool_name, filter_tool_args kwargs)

/-- `FilteredMCPClient.call_tool_async` (`strands_mcp_agent.py` lines
49-68), projected to the arguments passed to the parent: a falsy
`arguments` (absent dictionary, or the empty dictionary) is forwarded
unfiltered, anything else is filtered. -/
def call_tool_async_args (arguments : Option (List (String × PyVal))) :
    Option (List (String × PyVal)) :=
  match arguments with
  | Option.none => Option.none
  | some l => if l = [] then some l else some (filter_tool_args l)

/-- The part of the §3 registry invariant that the code maintains: a
`connected` entry always carries a timestamp, and a `disconnected`
entry carries neither timestamp nor cached tools. (The converse
directions of the specified invariant fail, see the counterexamples.) -/
def serverStateInv (s : MCPServer) : Prop :=
  (s.status = "connected" → s.connected_at.isSome = true)
  ∧ (s.status = "disconnected" →
      s.connected_at = Option.none ∧ s.available_tools = [])

/-- `serverStateInv` for every entry of a registry mapping. -/
def managerInvL (l : List (String × MCPServer)) : Prop :=
  ∀ id s, lookupA l id = some s → serverStateInv s

/-- The registry invariant on a whole manager state. -/
def managerInv (st : ManagerState) : Prop :=
  managerInvL st.servers

/-- Whether an operation can create, destroy or reconnect the registry
entry of `id` — exactly the operations excluded when we say every
other operation leaves the entry's `last_error` unchanged. -/
def opTouches (op : Op) (id : String) : Prop :=
  match op with
  | .connect sid _ _ => sid = id
  | .addServer _ fresh => fresh = id
  | .removeServer sid => sid = id
  | _ => False

/-- Concrete one-server configuration used by witnesses and
counterexamples. -/
def cexCfg : ServerConfig :=
  { name := some "A", description := Option.none, command := some ["cmd"],
    args := Option.none, env_vars := Option.none, enabled := Option.none,
    auto_connect := Option.none, category := Option.none }

/-- A concrete capability descriptor. -/
def tool1 : ToolInfo := { name := "t", description := "d", inputSchema := "s" }

/-- A fully specified server-configuration dictionary. -/
def cfgA : ServerConfig :=
  { name := some "A", description := some "d", command := some ["x"],
    args := some ["p"], env_vars := some [], enabled := some true,
    auto_connect := some false, category := some "Gen" }

/-- `cfgA` with different `command`, `args`, `enabled` and
`auto_connect` — the descriptor fields `get_server_status` omits. -/
def cfgB : ServerConfig :=
  { cfgA with
    command := some ["y"], args := some ["q"], enabled := some false,
    auto_connect := some true }

/-- A configuration dictionary with every key absent. -/
def cfgEmpty : ServerConfig :=
  { name := Option.none, description := Option.none,
    command := Option.none, args := Option.none, env_vars := Option.none,
    enabled := Option.none, auto_connect := Option.none,
    category := Option.none }

/-- A configuration dictionary carrying only a `name`. -/
def cfgOnlyName : ServerConfig := { cfgEmpty with name := some "A" }

/-- The manager holding server `s1`, after one successful connect that
listed the single tool `tool1`. -/
def stConnected : ManagerState :=
  runOps (initManager [("s1", cexCfg)])
    [Op.connect "s1" 30 (ConnectOutcome.ok [tool1])]

/-- The registry entry of `s1` inside `stConnected`. -/
def c1wServer : MCPServer :=
  { id := "s1", name := "A", description := "", command := ["cmd"], args := [],
    env_vars := [], enabled := true, auto_connect := false,
    category := "General", session := some 0, available_tools := [tool1],
    status := "connected", last_error := Option.none, connected_at := some 0 }

/-- A concrete Strands agent state in which `s1` is already connected. -/
def agentW : AgentState :=
  { mcp_servers := [("s1", cfgA)], mcp_clients := [("s1", 0)],
    connected_servers := [("s1",
      { name := "A", description := some "d", status := "connected",
        tools_count := some 2, error := Option.none })],
    nextClient := 1, agent_spawned := 1 }

/-- A callback that records its invocation and then raises. -/
def hW1 : Handler (List String) Nat :=
  { run := fun _ s => (s ++ ["h1"], some "boom") }

/-- A callback that records its invocation and succeeds. -/
def hW2 : Handler (List String) Nat :=
  { run := fun _ s => (s ++ ["h2"], Option.none) }

/-- The manager holding server `s1` after one connect attempt that
failed with the transport exception `boom`. -/
def stErrored : ManagerState :=
  runOps (initManager [("s1", cexCfg)])
    [Op.connect "s1" 30 (ConnectOutcome.transportError "boom")]

/-- The registry entry of `s1` inside `stErrored`. -/
def sErrored : MCPServer :=
  { id := "s1", name := "A", description := "", command := ["cmd"], args := [],
    env_vars := [], enabled := true, auto_connect := false,
    category := "General", session := Option.none, available_tools := [],
    status := "error", last_error := some "boom",
    connected_at := Option.none }

end MCPDemo

namespace MCPDemo

theorem lookupA_updateA_self {β : Type} (l : List (String × β)) (k : String)
    (f : β → β) : lookupA (updateA l k f) k = (lookupA l k).map f := by
  induction l with
  | nil => rfl
  | cons p rest ih =>
    by_cases h : p.1 = k
    · simp [updateA, lookupA, h]
    · simp [updateA, lookupA, h, ih]

theorem lookupA_updateA_ne {β : Type} (l : List (String × β)) {k k' : String}
    (f : β → β) (h : k' ≠ k) : lookupA (updateA l k f) k' = lookupA l k' := by
  have hkk : ¬ k = k' := fun he => h he.symm
  induction l with
  | nil => rfl
  | cons p rest ih =>
    by_cases hp : p.1 = k
    · simp [updateA, lookupA, hp, hkk, ih]
    · by_cases hp' : p.1 = k'
      · simp [updateA, lookupA, hp, hp', h]
      · simp [updateA, lookupA, hp, hp', ih]

theorem lookupA_eraseA_self {β : Type} (l : List (String × β)) (k : String) :
    lookupA (eraseA l k) k = Option.none := by
  induction l with
  | nil => rfl
  | cons p rest ih =>
    by_cases h : p.1 = k
    · simp [eraseA, h, ih]
    · simp [eraseA, lookupA, h, ih]

theorem lookupA_eraseA_ne {β : Type} (l : List (String × β)) {k k' : String}
    (h : k' ≠ k) : lookupA (eraseA l k) k' = lookupA l k' := by
  have hkk : ¬ k = k' := fun he => h he.symm
  induction l with
  | nil => rfl
  | cons p rest ih =>
    by_cases hp : p.1 = k
    · simp [eraseA, lookupA, hp, hkk, ih]
    · by_cases hp' : p.1 = k'
      · simp [eraseA, lookupA, hp, hp', h]
      · simp [eraseA, lookupA, hp, hp', ih]

theorem lookupA_append_none {β : Type} (l l' : List (String × β)) (k : String)
    (h : lookupA l k = Option.none) : lookupA (l ++ l') k = lookupA l' k := by
  induction l with
  | nil => rfl
  | cons p rest ih =>
    by_cases hp : p.1 = k
    · simp [lookupA, hp] at h
    · simp [lookupA, hp] at h ⊢
      exact ih h

theorem lookupA_append_single_ne {β : Type} (l : List (String × β)) {k k' : String}
    (v : β) (h : k' ≠ k) : lookupA (l ++ [(k, v)]) k' = lookupA l k' := by
  have hkk : ¬ k = k' := fun he => h he.symm
  induction l with
  | nil => simp [lookupA, hkk]
  | cons p rest ih =>
    by_cases hp : p.1 = k'
    · simp [lookupA, hp]
    · simp [lookupA, hp, ih]

theorem lookupA_setA_self {β : Type} (l : List (String × β)) (k : String) (v : β) :
    lookupA (setA l k v) k = some v := by
  unfold setA
  by_cases h : (lookupA l k).isSome
  · rw [if_pos h, lookupA_updateA_self]
    cases ho : lookupA l k with
    | none => rw [ho] at h; simp at h
    | some w => simp
  · rw [if_neg h]
    have hn : lookupA l k = Option.none := by
      cases ho : lookupA l k with
      | none => rfl
      | some w => rw [ho] at h; simp at h
    rw [lookupA_append_none l _ k hn]
    simp [lookupA]

theorem lookupA_setA_ne {β : Type} (l : List (String × β)) {k k' : String} (v : β)
    (h : k' ≠ k) : lookupA (setA l k v) k' = lookupA l k' := by
  unfold setA
  by_cases hs : (lookupA l k).isSome
  · rw [if_pos hs, lookupA_updateA_ne _ _ h]
  · rw [if_neg hs, lookupA_append_single_ne _ _ h]

end MCPDemo
namespace MCPDemo

theorem serverStateInv_of_error {s : MCPServer} (h : s.status = "error") :
    serverStateInv s := by
  constructor
  · intro hc; rw [h] at hc; exact absurd hc (by decide)
  · intro hd; rw [h] at hd; exact absurd hd (by decide)

theorem serverStateInv_of_disconnected {s : MCPServer}
    (h : s.status = "disconnected") (h1 : s.connected_at = Option.none)
    (h2 : s.available_tools = []) : serverStateInv s := by
  constructor
  · intro hc; rw [h] at hc; exact absurd hc (by decide)
  · intro _; exact ⟨h1, h2⟩

theorem serverStateInv_of_connected {s : MCPServer}
    (h : s.status = "connected") (h1 : s.connected_at.isSome = true) :
    serverStateInv s := by
  constructor
  · intro _; exact h1
  · intro hd; rw [h] at hd; exact absurd hd (by decide)

theorem invL_update {l : List (String × MCPServer)} {k : String}
    {f : MCPServer → MCPServer} (h : managerInvL l)
    (hf : ∀ s, serverStateInv s → serverStateInv (f s)) :
    managerInvL (updateA l k f) := by
  intro id s hl
  by_cases hik : id = k
  · subst hik
    rw [lookupA_updateA_self] at hl
    cases ho : lookupA l id with
    | none => rw [ho] at hl; exact absurd hl (by simp)
    | some s0 =>
      rw [ho] at hl
      simp only [Option.map_some'] at hl
      cases hl
      exact hf s0 (h id s0 ho)
  · rw [lookupA_updateA_ne _ _ hik] at hl
    exact h id s hl

theorem invL_set {l : List (String × MCPServer)} {k : String} {v : MCPServer}
    (h : managerInvL l) (hv : serverStateInv v) : managerInvL (setA l k v) := by
  intro id s hl
  by_cases hik : id = k
  · subst hik
    rw [lookupA_setA_self] at hl
    cases hl
    exact hv
  · rw [lookupA_setA_ne _ _ hik] at hl
    exact h id s hl

theorem invL_erase {l : List (String × MCPServer)} {k : String}
    (h : managerInvL l) : managerInvL (eraseA l k) := by
  intro id s hl
  by_cases hik : id = k
  · subst hik; rw [lookupA_eraseA_self] at hl; exact absurd hl (by simp)
  · rw [lookupA_eraseA_ne _ hik] at hl; exact h id s hl

theorem invL_load (cfg : List (String × ServerConfig)) :
    managerInvL (load_config cfg) := by
  induction cfg with
  | nil => intro id s hl; exact absurd hl (by simp [load_config, lookupA])
  | cons p rest ih =>
    intro id s hl
    simp only [load_config, List.map_cons] at hl
    by_cases hp : p.1 = id
    · simp only [lookupA, hp, if_pos rfl] at hl
      cases hl
      exact serverStateInv_of_disconnected rfl rfl rfl
    · simp only [lookupA, hp, if_neg hp] at hl
      exact ih id s hl

end MCPDemo
namespace MCPDemo

theorem inv_connect {st : ManagerState} (hi : managerInv st) (sid : String)
    (t : Nat) (oc : ConnectOutcome) : managerInv (connect_server st sid t oc).2 := by
  unfold connect_server
  split
  · exact hi
  · cases oc with
    | importError => exact invL_update hi (fun s _ => serverStateInv_of_error rfl)
    | transportTimeout => exact invL_update hi (fun s _ => serverStateInv_of_error rfl)
    | transportError msg => exact invL_update hi (fun s _ => serverStateInv_of_error rfl)
    | initTimeout => exact invL_update hi (fun s _ => serverStateInv_of_error rfl)
    | initError msg => exact invL_update hi (fun s _ => serverStateInv_of_error rfl)
    | listToolsTimeout => exact invL_update hi (fun s _ => serverStateInv_of_error rfl)
    | listToolsError msg => exact invL_update hi (fun s _ => serverStateInv_of_error rfl)
    | ok tools => exact invL_update hi (fun s _ => serverStateInv_of_connected rfl rfl)

theorem inv_disconnect {st : ManagerState} (hi : managerInv st) (sid : String) :
    managerInv (disconnect_server st sid) := by
  unfold disconnect_server
  split
  · exact hi
  · dsimp only
    split
    · exact hi
    · exact invL_update hi (fun s _ => serverStateInv_of_disconnected rfl rfl rfl)

theorem call_tool_servers (st : ManagerState) (sid tn : String)
    (args : List (String × PyVal)) (t : Nat) (oc : CallOutcome) :
    ((call_tool st sid tn args t oc).2).servers = st.servers := by
  unfold call_tool
  split
  · rfl
  · split
    · rfl
    · cases oc <;> rfl

theorem inv_step {st : ManagerState} (hi : managerInv st) (op : Op) :
    managerInv (step st op) := by
  cases op with
  | connect sid t oc =>
    simp only [step]
    exact inv_connect hi sid t oc
  | disconnect sid =>
    simp only [step]
    exact inv_disconnect hi sid
  | callTool sid tn args t oc =>
    unfold managerInv
    simp only [step]
    rw [call_tool_servers]
    exact hi
  | addServer cfg fresh =>
    simp only [step]
    cases hn : cfg.name with
    | none => simp only [add_server, hn]; exact hi
    | some nm =>
      cases hc : cfg.command with
      | none => simp only [add_server, hn, hc]; exact hi
      | some cmd =>
        simp only [add_server, hn, hc]
        exact invL_set hi (serverStateInv_of_disconnected rfl rfl rfl)
  | updateServer sid cfg =>
    simp only [step]
    unfold update_server
    split
    · exact hi
    · exact invL_update hi (fun s hs => hs)
  | removeServer sid =>
    simp only [step]
    unfold remove_server
    split
    · exact hi
    · dsimp only
      split
      · exact @inv_disconnect { st with servers := eraseA st.servers sid } (invL_erase hi) sid
      · exact invL_erase hi

theorem inv_runOps (cfg : List (String × ServerConfig)) (ops : List Op) :
    managerInv (runOps (initManager cfg) ops) := by
  suffices h : ∀ st, managerInv st → managerInv (runOps st ops) from
    h _ (invL_load cfg)
  induction ops with
  | nil => exact fun st hs => hs
  | cons op rest ih => exact fun st hs => ih _ (inv_step hs op)

end MCPDemo
namespace MCPDemo

/-- C1 (corrected): the claimed §3 invariant fails on the code. A
single reconnect of the connected server `s1` that times out while
opening the transport leaves the registry entry in status `error`
while `connected_at` is still set and `available_tools` is still the
non-empty list cached by the earlier successful connect — refuting
both `connected_at` set iff connected and `available_tools` non-empty
only if connected. -/
theorem c1_counterexample :
    (lookupA (runOps (initManager [("s1", cexCfg)])
        [Op.connect "s1" 30 (ConnectOutcome.ok [tool1]),
         Op.connect "s1" 30 ConnectOutcome.transportTimeout]).servers "s1").map
      (fun s => (s.status, s.connected_at, s.available_tools))
      = some ("error", some 0, [tool1]) := by decide

/-- C1 (amended): the direction of the invariant the code does
maintain, after every sequence of operations from a freshly loaded
manager: a `connected` entry always has `connected_at` set, and a
`disconnected` entry has `connected_at` unset and no cached tools.
(The remaining directions fail: an entry in status `error` may retain
a stale `connected_at` and non-empty `available_tools`.) -/
theorem c1_registry_invariant :
    ∀ (cfg : List (String × ServerConfig)) (ops : List Op) (id : String)
      (s : MCPServer),
      lookupA (runOps (initManager cfg) ops).servers id = some s →
      (s.status = "connected" → s.connected_at.isSome = true)
      ∧ (s.status = "disconnected" →
          s.connected_at = Option.none ∧ s.available_tools = []) :=
  fun cfg ops id s h => inv_runOps cfg ops id s h

/-- Witness for `c1_registry_invariant` at a concrete trace: after a
successful connect of `s1` the looked-up entry is `c1wServer` and the
invariant holds of it. -/
theorem c1_registry_invariant_witness :
    (c1wServer.status = "connected" → c1wServer.connected_at.isSome = true)
    ∧ (c1wServer.status = "disconnected" →
        c1wServer.connected_at = Option.none ∧ c1wServer.available_tools = []) :=
  c1_registry_invariant [("s1", cexCfg)]
    [Op.connect "s1" 30 (ConnectOutcome.ok [tool1])] "s1" c1wServer (by decide)

end MCPDemo
namespace MCPDemo

/-- C2 (corrected): `MCPClientManager.connect_server` has no
already-connected guard. Connecting `s1` a second time while it is
connected returns `True`, but it opens a second transport session and
replaces the stored exit stack without closing the first session, so
two live sessions for `s1` exist afterwards — refuting both the
no-second-session and the no-two-concurrent-sessions parts of the
claim for this manager. -/
theorem c2_counterexample :
    ((lookupA ((connect_server (initManager [("s1", cexCfg)]) "s1" 30
          (ConnectOutcome.ok [])).2).servers "s1").map MCPServer.status
        = some "connected")
    ∧ (connect_server ((connect_server (initManager [("s1", cexCfg)]) "s1" 30
          (ConnectOutcome.ok [])).2) "s1" 30 (ConnectOutcome.ok [])).1 = true
    ∧ live_sessions ((connect_server ((connect_server
          (initManager [("s1", cexCfg)]) "s1" 30 (ConnectOutcome.ok [])).2)
          "s1" 30 (ConnectOutcome.ok [])).2) "s1" = [0, 1] := by decide

/-- C2 (amended): the already-connected guard the claim describes is
the one in `StrandsMCPAgent.connect_server`: for a configured server id
that already has a client in `mcp_clients`, a repeated connect returns
`True` and leaves the agent state entirely unchanged — in particular no
second transport is opened and the existing session is untouched. -/
theorem c2_agent_idempotent :
    ∀ (st : AgentState) (server_id : String) (cfg : ServerConfig) (c : Nat)
      (oc : AgentConnectOutcome),
      lookupA st.mcp_servers server_id = some cfg →
      lookupA st.mcp_clients server_id = some c →
      agent_connect_server st server_id oc = (true, st) := by
  intro st server_id cfg c oc h1 h2
  unfold agent_connect_server
  rw [h1, h2]

/-- Witness for `c2_agent_idempotent`: reconnecting the already
connected `s1` of the concrete agent state `agentW` is the identity. -/
theorem c2_agent_idempotent_witness :
    agent_connect_server agentW "s1" (AgentConnectOutcome.ok 5) = (true, agentW) :=
  c2_agent_idempotent agentW "s1" cfgA 0 (AgentConnectOutcome.ok 5)
    (by decide) (by decide)

end MCPDemo
namespace MCPDemo

theorem connect_lookup_other {st : ManagerState} {sid id : String} (h : id ≠ sid)
    (t : Nat) (oc : ConnectOutcome) :
    lookupA ((connect_server st sid t oc).2).servers id = lookupA st.servers id := by
  unfold connect_server
  split
  · rfl
  · cases oc <;> exact lookupA_updateA_ne _ _ h

/-- C3 (corrected): after a failed connect stored `boom` as the last
error of `s1`, a subsequent successful connect leaves the stale message
in place while the status becomes `connected` — the success path of
`connect_server` neither clears nor replaces `last_error`, refuting the
claim that the next successful connect overwrites it. -/
theorem c3_counterexample :
    (lookupA (runOps (initManager [("s1", cexCfg)])
        [Op.connect "s1" 30 (ConnectOutcome.transportError "boom"),
         Op.connect "s1" 30 (ConnectOutcome.ok [])]).servers "s1").map
      (fun s => (s.status, s.last_error))
      = some ("connected", some "boom") := by decide

/-- C3 (amended): how `last_error` actually evolves. (a) Every
operation that is not a connect attempt on the id and does not delete
or overwrite the whole entry (`opTouches`) leaves the entry's
`last_error` unchanged — in particular disconnect, tool calls and
descriptor updates. (b) Every failed connect attempt on the id
replaces `last_error` with the new failure message. (c) A successful
connect leaves `last_error` unchanged, so the stale error stays
visible while the server is connected. -/
theorem c3_last_error :
    (∀ (st : ManagerState) (id : String) (s : MCPServer) (op : Op),
       lookupA st.servers id = some s → ¬ opTouches op id →
       (lookupA (step st op).servers id).map MCPServer.last_error
         = some s.last_error)
    ∧ (∀ (st : ManagerState) (sid : String) (s : MCPServer) (t : Nat)
         (oc : ConnectOutcome) (m : String),
       lookupA st.servers sid = some s → connectFailMsg oc t = some m →
       (lookupA ((connect_server st sid t oc).2).servers sid).map
         MCPServer.last_error = some (some m))
    ∧ (∀ (st : ManagerState) (sid : String) (s : MCPServer) (t : Nat)
         (tools : List ToolInfo),
       lookupA st.servers sid = some s →
       (lookupA ((connect_server st sid t (ConnectOutcome.ok tools)).2).servers
         sid).map MCPServer.last_error = some s.last_error) := by
  refine ⟨?_, ?_, ?_⟩
  · intro st id s op hl hop
    cases op with
    | connect sid t oc =>
      have hne : id ≠ sid := fun he => hop he.symm
      simp only [step]
      rw [connect_lookup_other hne, hl]
      rfl
    | disconnect sid =>
      simp only [step]
      unfold disconnect_server
      split
      · rw [hl]; rfl
      · dsimp only
        split
        · rw [hl]; rfl
        · by_cases hid : id = sid
          · subst hid
            rw [lookupA_updateA_self, hl]
            rfl
          · rw [lookupA_updateA_ne _ _ hid, hl]
            rfl
    | callTool sid tn args t oc =>
      simp only [step]
      rw [call_tool_servers, hl]
      rfl
    | addServer cfg fresh =>
      have hne : id ≠ fresh := fun he => hop he.symm
      simp only [step]
      cases hn : cfg.name with
      | none => simp only [add_server, hn]; rw [hl]; rfl
      | some nm =>
        cases hc : cfg.command with
        | none => simp only [add_server, hn, hc]; rw [hl]; rfl
        | some cmd =>
          simp only [add_server, hn, hc]
          rw [lookupA_setA_ne _ _ hne, hl]
          rfl
    | updateServer sid cfg =>
      simp only [step]
      unfold update_server
      split
      · rw [hl]; rfl
      · by_cases hid : id = sid
        · subst hid
          rw [lookupA_updateA_self, hl]
          rfl
        · rw [lookupA_updateA_ne _ _ hid, hl]
          rfl
    | removeServer sid =>
      have hne : id ≠ sid := fun he => hop he.symm
      simp only [step]
      unfold remove_server
      split
      · rw [hl]; rfl
      · dsimp only
        split
        · unfold disconnect_server
          split
          · rw [lookupA_eraseA_ne _ hne, hl]; rfl
          · dsimp only
            split
            · rw [lookupA_eraseA_ne _ hne, hl]; rfl
            · rw [lookupA_updateA_ne _ _ hne, lookupA_eraseA_ne _ hne, hl]
              rfl
        · rw [lookupA_eraseA_ne _ hne, hl]; rfl
  · intro st sid s t oc m hl hm
    cases oc with
    | ok tools => exact Option.noConfusion hm
    | importError =>
      simp only [connectFailMsg] at hm
      unfold connect_server
      rw [hl]
      try dsimp only
      rw [lookupA_updateA_self, hl]
      try dsimp only
      exact congrArg some hm
    | transportTimeout =>
      simp only [connectFailMsg] at hm
      unfold connect_server
      rw [hl]
      try dsimp only
      rw [lookupA_updateA_self, hl]
      try dsimp only
      exact congrArg some hm
    | transportError msg =>
      simp only [connectFailMsg] at hm
      unfold connect_server
      rw [hl]
      try dsimp only
      rw [lookupA_updateA_self, hl]
      try dsimp only
      exact congrArg some hm
    | initTimeout =>
      simp only [connectFailMsg] at hm
      unfold connect_server
      rw [hl]
      try dsimp only
      rw [lookupA_updateA_self, hl]
      try dsimp only
      exact congrArg some hm
    | initError msg =>
      simp only [connectFailMsg] at hm
      unfold connect_server
      rw [hl]
      try dsimp only
      rw [lookupA_updateA_self, hl]
      try dsimp only
      exact congrArg some hm
    | listToolsTimeout =>
      simp only [connectFailMsg] at hm
      unfold connect_server
      rw [hl]
      try dsimp only
      rw [lookupA_updateA_self, hl]
      try dsimp only
      exact congrArg some hm
    | listToolsError msg =>
      simp only [connectFailMsg] at hm
      unfold connect_server
      rw [hl]
      try dsimp only
      rw [lookupA_updateA_self, hl]
      try dsimp only
      exact congrArg some hm
  · intro st sid s t tools hl
    unfold connect_server
    rw [hl]
    dsimp only
    rw [lookupA_updateA_self, hl]
    rfl

/-- Witness for `c3_last_error`, part (c), at a concrete state: after
the failed connect that stored `boom`, a successful reconnect keeps
`last_error = boom`. -/
theorem c3_last_error_witness :
    (lookupA ((connect_server stErrored "s1" 30
        (ConnectOutcome.ok [])).2).servers "s1").map MCPServer.last_error
      = some (some "boom") := by
  have h := c3_last_error.2.2 stErrored "s1" sErrored 30 [] (by decide)
  simpa using h

end MCPDemo
namespace MCPDemo

/-- C4 (confirmed): `call_tool` on an unknown id, or on a server whose
status is not `connected`, immediately returns the structured
not-found / not-connected failure dictionary and leaves the state
untouched — no history entry is appended, no event is emitted, and no
session or subprocess is created (`spawned` is part of the unchanged
state). -/
theorem c4_reject :
    ∀ (st : ManagerState) (server_id tool_name : String)
      (args : List (String × PyVal)) (t : Nat) (oc : CallOutcome),
      (lookupA st.servers server_id = Option.none →
        call_tool st server_id tool_name args t oc
          = (CallResult.errOnly ("Server " ++ server_id ++ " not found"), st))
      ∧ (∀ s, lookupA st.servers server_id = some s → s.status ≠ "connected" →
        call_tool st server_id tool_name args t oc
          = (CallResult.errOnly ("Server " ++ s.name ++ " is not connected"), st)) := by
  intro st server_id tool_name args t oc
  constructor
  · intro h
    unfold call_tool
    rw [h]
  · intro s h hs
    unfold call_tool
    rw [h]
    try dsimp only
    rw [if_pos (Or.inl hs)]

/-- Witness for `c4_reject` at concrete states: an unknown id on an
empty manager, and the configured but never-connected `s1`. -/
theorem c4_reject_witness :
    call_tool (initManager []) "nope" "t" [] 60 CallOutcome.timeout
      = (CallResult.errOnly "Server nope not found", initManager [])
    ∧ call_tool (initManager [("s1", cexCfg)]) "s1" "t" [] 60 CallOutcome.timeout
      = (CallResult.errOnly "Server A is not connected",
         initManager [("s1", cexCfg)]) := by
  constructor
  · exact (c4_reject (initManager []) "nope" "t" [] 60 CallOutcome.timeout).1
      (by decide)
  · have h := (c4_reject (initManager [("s1", cexCfg)]) "s1" "t" [] 60
      CallOutcome.timeout).2 (configToServer "s1" cexCfg) (by decide) (by decide)
    exact h

/-- C5 (confirmed): `call_tool` on a connected server whose remote call
times out appends a record that ends `failed` with an error message
stating the timeout duration and with `duration` equal to the timeout
value itself, emits `tool_call_start` then `tool_call_error`, and
returns the `success = False` dictionary with that error. -/
theorem c5_timeout :
    ∀ (st : ManagerState) (server_id : String) (s : MCPServer)
      (tool_name : String) (args : List (String × PyVal)) (t : Nat),
      lookupA st.servers server_id = some s → s.status = "connected" →
      s.session ≠ Option.none →
      call_tool st server_id tool_name args t CallOutcome.timeout
        = (CallResult.fail (tool_timeout_msg t),
           { st with
             tool_call_history := st.tool_call_history ++
               [{ server_id := server_id, server_name := s.name,
                  tool_name := tool_name, arguments := args,
                  timestamp := st.clock, status := "failed",
                  result := Option.none, error := some (tool_timeout_msg t),
                  duration := some t }],
             events := st.events ++
               [("tool_call_start", server_id), ("tool_call_error", server_id)],
             clock := st.clock + t + 1 })
      ∧ tool_timeout_msg t
          = "Tool execution timed out after " ++ toString t ++ " seconds" := by
  intro st server_id s tool_name args t h hstat hsess
  constructor
  · unfold call_tool
    rw [h]
    try dsimp only
    rw [if_neg (fun hor => hor.elim (fun hne => hne hstat) hsess)]
  · rfl

/-- Witness for `c5_timeout` at the concrete connected state
`stConnected`. -/
theorem c5_timeout_witness :
    (call_tool stConnected "s1" "t" [] 60 CallOutcome.timeout).1
      = CallResult.fail "Tool execution timed out after 60 seconds" := by
  have h := (c5_timeout stConnected "s1" c1wServer "t" [] 60
    (by decide) (by decide) (by decide)).1
  rw [h]
  rfl

theorem disconnect_noop {st : ManagerState} {sid : String}
    (h : lookupA st.active_connections sid = Option.none) :
    disconnect_server st sid = st := by
  unfold disconnect_server
  rw [h]

/-- C6 (confirmed): `disconnect_server` is total and idempotent. With
no registered exit stack for the id (unknown or not-connected servers)
it is the identity and raises nothing (it is a total function). With a
registered stack holding session `n` it closes `n`, deregisters the
stack, resets the registry entry (status `disconnected`, session,
timestamp and capability cache cleared), and emits
`server_disconnected`; a second disconnect then leaves the state
unchanged. -/
theorem c6_disconnect :
    ∀ (st : ManagerState) (server_id : String),
      (lookupA st.active_connections server_id = Option.none →
        disconnect_server st server_id = st)
      ∧ (∀ n, lookupA st.active_connections server_id = some n →
          (disconnect_server st server_id).closed = st.closed ++ [n]
          ∧ lookupA (disconnect_server st server_id).active_connections server_id
              = Option.none
          ∧ (∀ s, lookupA st.servers server_id = some s →
              lookupA (disconnect_server st server_id).servers server_id
                = some { s with
                         status := "disconnected",
                         session := Option.none,
                         connected_at := Option.none,
                         available_tools := [] })
          ∧ (disconnect_server st server_id).events
              = st.events ++ [("server_disconnected", server_id)])
      ∧ disconnect_server (disconnect_server st server_id) server_id
          = disconnect_server st server_id := by
  intro st sid
  refine ⟨fun h => disconnect_noop h, ?_, ?_⟩
  · intro n h
    unfold disconnect_server
    rw [h]
    dsimp only
    cases hs : lookupA st.servers sid with
    | none =>
      refine ⟨rfl, lookupA_eraseA_self _ _, ?_, rfl⟩
      intro s hss
      exact Option.noConfusion hss
    | some s0 =>
      refine ⟨rfl, lookupA_eraseA_self _ _, ?_, rfl⟩
      intro s hss
      cases hss
      dsimp only
      rw [lookupA_updateA_self, hs]
      rfl
  · cases h : lookupA st.active_connections sid with
    | none =>
      rw [disconnect_noop h]
      exact disconnect_noop h
    | some n =>
      have hnone : lookupA (disconnect_server st sid).active_connections sid
          = Option.none := by
        unfold disconnect_server
        rw [h]
        dsimp only
        cases hs : lookupA st.servers sid <;> exact lookupA_eraseA_self _ _
      exact disconnect_noop hnone

/-- Witness for `c6_disconnect` at the concrete connected state
`stConnected`: disconnecting emits the event and a second disconnect
changes nothing. -/
theorem c6_disconnect_witness :
    (disconnect_server stConnected "s1").events
      = stConnected.events ++ [("server_disconnected", "s1")]
    ∧ disconnect_server (disconnect_server stConnected "s1") "s1"
        = disconnect_server stConnected "s1" := by
  have h := c6_disconnect stConnected "s1"
  exact ⟨(h.2.1 0 (by decide)).2.2.2, h.2.2⟩

end MCPDemo
namespace MCPDemo

theorem run_callbacks_cons {σ α : Type} (h : Handler σ α)
    (rest : List (Handler σ α)) (data : α) (s : σ) (log : List String) :
    run_callbacks (h :: rest) data s log
      = (match h.run data s with
         | (s', Option.none) => run_callbacks rest data s' log
         | (s', some e) =>
           run_callbacks rest data s' (log ++ ["Event callback error: " ++ e])) := by
  unfold run_callbacks
  rw [List.foldl_cons]
  cases hr : h.run data s with
  | mk s' e => cases e <;> rfl

theorem run_callbacks_spec {σ α : Type} (hs : List (Handler σ α)) (data : α) :
    ∀ (s : σ) (log : List String),
      run_callbacks hs data s log
        = (applyHandlers hs data s, log ++ handlerErrors hs data s) := by
  induction hs with
  | nil => intro s log; simp [run_callbacks, applyHandlers, handlerErrors]
  | cons h rest ih =>
    intro s log
    rw [run_callbacks_cons]
    cases hr : h.run data s with
    | mk s' e =>
      cases e with
      | none =>
        dsimp only
        rw [ih s' log]
        simp [applyHandlers, handlerErrors, hr]
      | some msg =>
        dsimp only
        rw [ih s' (log ++ ["Event callback error: " ++ msg])]
        simp [applyHandlers, handlerErrors, hr]

/-- C7 (confirmed): `_trigger_event` delivers the payload to every
handler registered for the event type: the resulting ambient state is
the fold of all handlers in registration order (`applyHandlers`), so a
handler that raises does not prevent later handlers from running, and
each raised exception is caught and logged (`handlerErrors`) instead of
propagating — `trigger_event` is a total function returning to its
caller in every case. -/
theorem c7_event_bus :
    ∀ (σ α : Type) (callbacks : List (String × List (Handler σ α)))
      (event_type : String) (data : α) (s : σ) (hs : List (Handler σ α)),
      lookupA callbacks event_type = some hs →
      trigger_event callbacks event_type data s
        = (applyHandlers hs data s, handlerErrors hs data s) := by
  intro σ α callbacks etype data s hs h
  unfold trigger_event
  rw [h]
  dsimp only
  rw [run_callbacks_spec hs data s []]
  rw [List.nil_append]

/-- Witness for `c7_event_bus`: with two registered callbacks of which
the first raises `boom`, both still run (`h1` then `h2` are recorded in
the ambient state) and the exception is logged, not propagated. -/
theorem c7_event_bus_witness :
    trigger_event [("evt", [hW1, hW2])] "evt" 0 ([] : List String)
      = (["h1", "h2"], ["Event callback error: boom"]) := by
  have h := c7_event_bus (List String) Nat [("evt", [hW1, hW2])] "evt" 0 []
    [hW1, hW2] rfl
  rw [h]
  rfl

end MCPDemo
namespace MCPDemo

/-- C8 (corrected): the status dictionary built by `get_server_status`
does not contain the `command`, `args`, `enabled` or `auto_connect`
fields of the descriptor, so the listing after `add_server` cannot
reproduce them: two descriptors differing exactly in those four fields
yield identical listings. -/
theorem c8_counterexample :
    get_server_status (runOps (initManager []) [Op.addServer cfgA "id1"]) "id1"
      = get_server_status (runOps (initManager []) [Op.addServer cfgB "id1"]) "id1"
    ∧ cfgA ≠ cfgB := by decide

/-- C8 (amended): `add_server` followed by `get_server_status` on the
generated id yields an entry whose `name`, `description`, `env_vars`
and `category` equal the input descriptor's (with a fresh
`disconnected` runtime); `command`, `args`, `enabled` and
`auto_connect` are absent from the listing. The persisted
configuration, however, holds the full descriptor: one
`save_config`/`load_config` round trip reproduces every descriptor
field of every registry entry (with runtime state reset). -/
theorem c8_descriptor_round_trip :
    (∀ (st : ManagerState) (cfg : ServerConfig) (fresh nm : String)
       (cmd : List String),
       cfg.name = some nm → cfg.command = some cmd →
       get_server_status (step st (Op.addServer cfg fresh)) fresh
         = StatusResult.ok
             { id := fresh, name := nm,
               description := cfg.description.getD "",
               status := "disconnected",
               category := cfg.category.getD "General",
               env_vars := cfg.env_vars.getD [],
               connected_at := Option.none, available_tools := [],
               last_error := Option.none })
    ∧ (∀ st : ManagerState,
       load_config (save_config st)
         = st.servers.map (fun p => (p.1, resetRuntime p.1 p.2))) := by
  constructor
  · intro st cfg fresh nm cmd hn hc
    simp only [step, add_server, hn, hc]
    unfold get_server_status
    rw [lookupA_setA_self]
  · intro st
    unfold load_config save_config
    rw [List.map_map]
    rfl

/-- Witness for `c8_descriptor_round_trip` at the concrete descriptor
`cfgA` added to an empty manager. -/
theorem c8_descriptor_round_trip_witness :
    get_server_status (step (initManager []) (Op.addServer cfgA "id1")) "id1"
      = StatusResult.ok
          { id := "id1", name := "A", description := "d",
            status := "disconnected", category := "Gen", env_vars := [],
            connected_at := Option.none, available_tools := [],
            last_error := Option.none } := by
  have h := c8_descriptor_round_trip.1 (initManager []) cfgA "id1" "A" ["x"]
    (by decide) (by decide)
  exact h

/-- C9 (corrected): `MCPClientManager.add_server` itself does raise out
of the manager when a required key is missing — evaluating
`server_config['name']` on a dictionary without `name` raises
`KeyError` (modelled as `Except.error`), refuting the never-raises part
of the claim for the manager's public operation. -/
theorem c9_counterexample :
    add_server (initManager []) cfgEmpty "id1"
      = Except.error "KeyError: name" := rfl

/-- C9 (amended): the synchronous missing-field report lives in the
HTTP route handler, which validates `name` and `command` before
calling the manager and returns a 400 result with a
`Missing required field` message, leaving the manager state untouched;
the route (a total function, its `try`/`except` catching everything)
never propagates an exception. The manager's own `add_server`, called
directly with the field missing, raises `KeyError` instead
(`c9_counterexample`). -/
theorem c9_route_validation :
    ∀ (st : ManagerState) (data : ServerConfig) (fresh : String),
      (data.name = Option.none →
        route_add_server st data fresh
          = ({ code := 400, success := false,
               error := some "Missing required field: name",
               server_id := Option.none, message := Option.none }, st))
      ∧ (data.name ≠ Option.none → data.command = Option.none →
        route_add_server st data fresh
          = ({ code := 400, success := false,
               error := some "Missing required field: command",
               server_id := Option.none, message := Option.none }, st)) := by
  intro st data fresh
  constructor
  · intro h
    unfold route_add_server
    rw [if_pos h]
  · intro h1 h2
    unfold route_add_server
    rw [if_neg h1, if_pos h2]

/-- Witness for `c9_route_validation` on concrete configuration
dictionaries missing `name` resp. `command`. -/
theorem c9_route_validation_witness :
    route_add_server (initManager []) cfgEmpty "id1"
      = ({ code := 400, success := false,
           error := some "Missing required field: name",
           server_id := Option.none, message := Option.none }, initManager [])
    ∧ route_add_server (initManager []) cfgOnlyName "id1"
      = ({ code := 400, success := false,
           error := some "Missing required field: command",
           server_id := Option.none, message := Option.none }, initManager []) := by
  constructor
  · exact (c9_route_validation (initManager []) cfgEmpty "id1").1 (by decide)
  · exact (c9_route_validation (initManager []) cfgOnlyName "id1").2
      (by decide) (by decide)

theorem keep_tool_arg_iff (k : String) (v : PyVal) :
    keep_tool_arg k v = true
      ↔ ¬(v = PyVal.none ∨ (k = "offset" ∧ pyEqZero v = true)) := by
  by_cases hv : v = PyVal.none
  · subst hv
    simp [keep_tool_arg]
  · by_cases hk : k = "offset"
    · subst hk
      by_cases hz : pyEqZero v = true
      · simp [keep_tool_arg, hv, hz]
      · simp [keep_tool_arg, hv, hz]
    · simp [keep_tool_arg, hv, hk]

/-- C10 (confirmed): the filtered MCP client removes exactly the
argument pairs whose value is `None` and the pairs named `offset`
whose value compares equal to `0` (in Python `False == 0`, bool being
a subtype of int, which `pyEqZero` reflects); every other pair is kept
with its value and relative order unchanged (the kept list is a
sublist of the input), and this filtered dictionary is what both the
synchronous and the asynchronous override hand to the underlying tool
call — a falsy `arguments` in the async path is forwarded as is. -/
theorem c10_argument_filtering :
    ∀ (kwargs : List (String × PyVal)),
      (∀ (k : String) (v : PyVal),
        ((k, v) ∈ filter_tool_args kwargs ↔
          (k, v) ∈ kwargs
          ∧ ¬(v = PyVal.none ∨ (k = "offset" ∧ pyEqZero v = true))))
      ∧ List.Sublist (filter_tool_args kwargs) kwargs
      ∧ (∀ tool_name, call_tool_sync_args tool_name kwargs
          = (tool_name, filter_tool_args kwargs))
      ∧ call_tool_async_args (some kwargs)
          = (if kwargs = [] then some kwargs
             else some (filter_tool_args kwargs))
      ∧ call_tool_async_args Option.none = Option.none := by
  intro kwargs
  refine ⟨?_, List.filter_sublist _, fun _ => rfl, rfl, rfl⟩
  intro k v
  rw [filter_tool_args, List.mem_filter]
  exact and_congr_right (fun _ => keep_tool_arg_iff k v)

end MCPDemo
